import Mathlib

/-!
Verification of the New Vegas backend (`backend/main.py`): a shallow
embedding of its tiered configuration resolution, event fetching with
fallback data, and contact-mail dispatch, together with proofs about the
claims of the specification.

External effects (environment variables, JSON parsing by `json.loads`,
the gspread client, file existence and reads, the mail transport) are
modelled as explicit fields of environment records: each field records
the outcome the external world would produce, `none` standing for a
raised exception where the Python code can observe one.
-/

set_option autoImplicit false

namespace NewVegas

/-- A JSON scalar value as it appears as a field of a configuration
object or a spreadsheet record: a string, an integer, or `null`
(Python `None`). -/
inductive JVal where
  | jstr : String → JVal
  | jnum : Int → JVal
  | jnull : JVal
deriving DecidableEq, Repr

/-- A JSON object / Python dict, as an association list from keys to
scalar values. Spreadsheet rows (`get_all_records`) and configuration
bundles both have this shape. -/
abbrev JObj := List (String × JVal)

/-- Dict lookup (`d.get(k)` / `d[k]`): the value at the first matching
key, or `none` when the key is absent. -/
def pyLookup (c : JObj) (k : String) : Option JVal :=
  match c with
  | [] => none
  | (k2, v) :: rest => if k2 = k then some v else pyLookup rest k

/-- Dict update `d[k] = v` for a key already present: replaces the value
at the first matching key, keeping its position; appends when absent. -/
def pySetKey (c : JObj) (k : String) (v : JVal) : JObj :=
  match c with
  | [] => [(k, v)]
  | (k2, v2) :: rest => if k2 = k then (k2, v) :: rest else (k2, v2) :: pySetKey rest k v

/-- Python truthiness of a JSON scalar: `None` and the empty string and
`0` are falsy, everything else truthy. -/
def jTruthy : JVal → Bool
  | .jstr s => !s.isEmpty
  | .jnum n => n != 0
  | .jnull => false

/-- Truthiness of an optional value (`None` for `none`). -/
def optTruthy : Option JVal → Bool
  | none => false
  | some v => jTruthy v

/-- Python `a or b` on optional values: `a` when truthy, else `b`. -/
def pyOr (a b : Option JVal) : Option JVal :=
  if optTruthy a then a else b

/-- Interpret a list of characters as a decimal number, as Python
`int()` does for the digit portion: all characters must be digits and
there must be at least one. -/
def digitsToNat (cs : List Char) : Option Nat :=
  if cs ≠ [] ∧ cs.all Char.isDigit then
    some (cs.foldl (fun a c => a * 10 + (c.toNat - 48)) 0)
  else none

/-- Python `int(s)` on a string: an optional sign followed by decimal
digits; `none` models the `ValueError` raised on any other string. -/
def pyIntOfString (s : String) : Option Int :=
  match s.data with
  | '-' :: rest => (digitsToNat rest).map (fun n => -(n : Int))
  | '+' :: rest => (digitsToNat rest).map (fun n => (n : Int))
  | cs => (digitsToNat cs).map (fun n => (n : Int))

/-- Python `int(v)` on a JSON scalar: integers pass through, strings are
parsed, `None` raises (`none`). -/
def pyInt : JVal → Option Int
  | .jnum n => some n
  | .jstr s => pyIntOfString s
  | .jnull => none

/-! ## Event data provider: `get_sheet_data` and `get_events` -/

/-- The external world as `get_sheet_data` observes it:
`googleCredsJson` is the `GOOGLE_CREDENTIALS_JSON` environment variable;
`parseCreds` is `json.loads` on that blob (`none` = `JSONDecodeError`);
`serviceAccountFromDictOk` records whether
`gspread.service_account_from_dict` succeeds on the parsed dict;
`credFileExists` is `os.path.exists(CREDENTIALS_FILE)`;
`serviceAccountFileOk` records whether `gspread.service_account` on the
local file succeeds; `fetchRows` is the outcome of
`gc.open(...).sheet1.get_all_records()` (`none` = any raised exception,
`some rows` = the rows read). -/
structure SheetEnv where
  googleCredsJson : Option String
  parseCreds : String → Option JObj
  serviceAccountFromDictOk : JObj → Bool
  credFileExists : Bool
  serviceAccountFileOk : Bool
  fetchRows : Option (List JObj)

/-- The `elif os.path.exists(CREDENTIALS_FILE)` branch of
`get_sheet_data`, reached when the environment blob is falsy: build the
client from the local file and fetch, any raise (caught by the outer
handler) or a missing file yielding `None`. -/
def fileBranch (env : SheetEnv) : Option (List JObj) :=
  if env.credFileExists then
    if env.serviceAccountFileOk then env.fetchRows else none
  else none

/-- Function `get_sheet_data()`: try the `GOOGLE_CREDENTIALS_JSON` blob first
(parse it and build a client from the dict), else the local credentials
file, else return `None`; the whole body sits in one
`try/except Exception`, so ANY raise — including a `json.loads` failure
on the blob — yields `None`. -/
def get_sheet_data (env : SheetEnv) : Option (List JObj) :=
  match env.googleCredsJson with
  | some s =>
      if s.isEmpty then fileBranch env
      else
        match env.parseCreds s with
        | none => none
        | some d => if env.serviceAccountFromDictOk d then env.fetchRows else none
  | none => fileBranch env

/-- The hardcoded fallback event list of `get_events`. -/
def fallback_events : List JObj :=
  [ [("Day", .jstr "Czwartki"), ("Time", .jstr "20:00"),
     ("Title", .jstr "Wielkie Karaoke (Fallback)"),
     ("Description", .jstr "Najgłośniejsza impreza na dzielni. Wstęp wolny.")],
    [("Day", .jstr "Wtorki"), ("Time", .jstr "All Day"),
     ("Title", .jstr "Bilard Night"),
     ("Description", .jstr "Zniżka na stoły -50% dla studentów.")],
    [("Day", .jstr "Środy"), ("Time", .jstr "20:30"),
     ("Title", .jstr "Stand-Up / Open Mic"),
     ("Description", .jstr "Testy nowych żartów i występy lokalnych komików.")],
    [("Day", .jstr "Pt / Sob"), ("Time", .jstr "21:00"),
     ("Title", .jstr "Koncerty Garażowe"),
     ("Description", .jstr "Sprawdź FB, kto gra w tym tygodniu.")] ]

/-- The `GET /api/events` handler `get_events()`: return the fetched
rows when truthy (`if data:` — a non-empty list), else the fallback
list; `None` and the empty list both fail the truthiness test. -/
def get_events (env : SheetEnv) : List JObj :=
  match get_sheet_data env with
  | some data => if data.isEmpty then fallback_events else data
  | none => fallback_events

/-- The environment blob is truthy (`if json_creds:`): present and
non-empty. -/
def blobTruthy (env : SheetEnv) : Bool :=
  match env.googleCredsJson with
  | some s => !s.isEmpty
  | none => false

/-- A credential state the claims call "absent, malformed, or the store
open/read raises": no source configured; a truthy blob that fails to
parse or whose dict is rejected by the client constructor; a local file
the client constructor rejects; or a raised open/read. -/
def credFailure (env : SheetEnv) : Prop :=
  (blobTruthy env = false ∧ env.credFileExists = false)
  ∨ (∃ s, env.googleCredsJson = some s ∧ s.isEmpty = false ∧
      (env.parseCreds s = none ∨
        ∃ d, env.parseCreds s = some d ∧ env.serviceAccountFromDictOk d = false))
  ∨ (blobTruthy env = false ∧ env.credFileExists = true ∧
      env.serviceAccountFileOk = false)
  ∨ env.fetchRows = none

/-- A credential state with a working source: a truthy blob that parses
and is accepted, or (with the blob falsy) an existing, accepted local
credentials file. -/
def validCredState (env : SheetEnv) : Prop :=
  (∃ s d, env.googleCredsJson = some s ∧ s.isEmpty = false ∧
      env.parseCreds s = some d ∧ env.serviceAccountFromDictOk d = true)
  ∨ (blobTruthy env = false ∧ env.credFileExists = true ∧
      env.serviceAccountFileOk = true)

/-! ## Mail configuration resolver: `load_mail_config` -/

/-- The external world as `load_mail_config` observes it:
`mailConfigJson` is the `MAIL_CONFIG_JSON` environment variable;
`parseBlob` is `json.loads` on that blob (`none` = `JSONDecodeError`,
caught and logged); `localFileExists` is
`os.path.exists("env_vars/mail_config.json")`; `readLocalFile` is the
outcome of opening and `json.load`-ing that file (`none` = any raised
exception, caught and logged); `envVar` gives the individual environment
variables consulted by the final fallback step. -/
structure MailEnv where
  mailConfigJson : Option String
  parseBlob : String → Option JObj
  localFileExists : Bool
  readLocalFile : Option JObj
  envVar : String → Option String

/-- Python truthiness of an optional dict (`None` or a dict): falsy
when `None` or empty. -/
def optJObjTruthy : Option JObj → Bool
  | none => false
  | some c => !c.isEmpty

/-- The value of the Python variable `config` after steps 1 and 2 of
`load_mail_config`: the parsed environment blob when the variable is
truthy and parses; else, when `config` is still falsy and the local file
exists, the file's parse (an exception leaving `config` unchanged). -/
def rawConfig (env : MailEnv) : Option JObj :=
  let config0 : Option JObj :=
    match env.mailConfigJson with
    | some s => if s.isEmpty then none else env.parseBlob s
    | none => none
  if !optJObjTruthy config0 && env.localFileExists then
    match env.readLocalFile with
    | some c => some c
    | none => config0
  else config0

/-- The config `if config:` accepts at line 92: the steps-1-2 result
when truthy (a non-empty dict), else nothing. -/
def foundConfig (env : MailEnv) : Option JObj :=
  match rawConfig env with
  | some c => if c.isEmpty then none else some c
  | none => none

/-- The "Process config if found" block: coerce `MAIL_PORT` to an
integer when the key is present; a non-numeric port makes `int()` raise
`ValueError`, which nothing catches (`Except.error`). -/
def processConfig (c : JObj) : Except Unit JObj :=
  match pyLookup c "MAIL_PORT" with
  | some v =>
      match pyInt v with
      | some n => .ok (pySetKey c "MAIL_PORT" (.jnum n))
      | none => .error ()
  | none => .ok c

/-- The `int(os.getenv("MAIL_PORT", 587))` of step 3: the variable's
string parsed when set (`none` = raised `ValueError`), else the default
integer `587` untouched. -/
def envPortValue (env : MailEnv) : Option Int :=
  match env.envVar "MAIL_PORT" with
  | some s => pyIntOfString s
  | none => some 587

/-- Step 3 of `load_mail_config`: the record built from individual
environment variables with hardcoded defaults; `int()` on a set but
non-numeric `MAIL_PORT` raises uncaught (`Except.error`), while the
unset default is the integer `587`. -/
def envVarFallback (env : MailEnv) : Except Unit JObj :=
  match envPortValue env with
  | none => .error ()
  | some n =>
      .ok [ ("MAIL_USERNAME", .jstr ((env.envVar "MAIL_USERNAME").getD "your-email@gmail.com")),
            ("MAIL_PASSWORD", .jstr ((env.envVar "MAIL_PASSWORD").getD "your-app-password")),
            ("MAIL_FROM", .jstr ((env.envVar "MAIL_FROM").getD "your-email@gmail.com")),
            ("MAIL_PORT", .jnum n),
            ("MAIL_SERVER", .jstr ((env.envVar "MAIL_SERVER").getD "smtp.gmail.com")),
            ("MAIL_RECIPIENT",
              match env.envVar "MAIL_RECIPIENT" with
              | some s => .jstr s
              | none => .jnull) ]

/-- Function `load_mail_config()`: environment blob, then local file, then
individual environment variables with defaults; `Except.error` models an
uncaught `ValueError`/`TypeError` from `int()` on a bad port. -/
def load_mail_config (env : MailEnv) : Except Unit JObj :=
  match foundConfig env with
  | some c => processConfig c
  | none => envVarFallback env

/-- The six keys a complete mail-settings record carries. -/
def mailKeys : List String :=
  ["MAIL_USERNAME", "MAIL_PASSWORD", "MAIL_FROM", "MAIL_PORT", "MAIL_SERVER", "MAIL_RECIPIENT"]

/-- A mail configuration is complete when every one of the six settings
keys is present. -/
def completeMailCfg (c : JObj) : Bool :=
  mailKeys.all (fun k => (pyLookup c k).isSome)

/-! ## Contact mail dispatcher: `ContactForm`, `send_contact_email` -/

/-- An incoming `POST /api/contact` body before validation: each field
may be missing. -/
structure RawReq where
  name : Option String
  email : Option String
  topic : Option String
  message : Option String

/-- The validated `ContactForm` pydantic model: four string fields, the
email having passed `EmailStr` validation. -/
structure ContactForm where
  name : String
  email : String
  topic : String
  message : String

/-- The framework boundary: body parsing and pydantic validation of
`ContactForm`. Every field must be present and the email must satisfy
the `EmailStr` syntax check (abstracted as the parameter `validEmail`,
the library's validator); `none` models the 422 rejection issued before
the handler runs. -/
def parseContactForm (validEmail : String → Bool) (r : RawReq) : Option ContactForm :=
  match r.name, r.email, r.topic, r.message with
  | some n, some e, some t, some m =>
      if validEmail e then some ⟨n, e, t, m⟩ else none
  | _, _, _, _ => none

/-- The f-string `message_body` composed by the handler. -/
def message_body (form : ContactForm) : String :=
  "\n    New Contact Request from New Vegas Website:\n    \n    Name: " ++ form.name
    ++ "\n    Email: " ++ form.email
    ++ "\n    Topic: " ++ form.topic
    ++ "\n    \n    Message:\n    " ++ form.message ++ "\n    "

/-- The `MessageSchema` handed to the background send: subject,
recipients list (the resolved recipient, possibly `None`), and body. -/
structure Message where
  subject : String
  recipients : List (Option JVal)
  body : String
deriving DecidableEq, Repr

/-- The `POST /api/contact` handler `send_contact_email`, given the
startup `mail_cfg` and the outcomes of the two external steps:
`constructOk` — whether `MessageSchema(...)` and `FastMail(conf)`
construct without raising (both sit OUTSIDE the `try`, so a raise there
propagates to the framework, which answers 500); `enqueueOk` — whether
`background_tasks.add_task` raises (caught, re-raised as
`HTTPException(500)`). On success the handler returns the
acknowledgement dict and the scheduled task; `Except.error` carries the
resulting HTTP status. -/
def send_contact_email (cfg : JObj) (constructOk enqueueOk : Bool)
    (form : ContactForm) : Except Nat (String × List Message) :=
  let body := message_body form
  let recipient := pyOr (pyLookup cfg "MAIL_RECIPIENT") (pyLookup cfg "MAIL_FROM")
  let msg : Message := ⟨"New Vegas Contact: " ++ form.topic, [recipient], body⟩
  if constructOk then
    if enqueueOk then .ok ("Email sent successfully", [msg])
    else .error 500
  else .error 500

/-- A completed route handling: HTTP status, the `message` payload of
the JSON body when acknowledged, and the background tasks scheduled to
run after the response. -/
structure RouteResult where
  status : Nat
  body : Option String
  tasks : List Message
deriving DecidableEq, Repr

/-- The full `POST /api/contact` route: validate at the boundary (422
on failure, handler never entered, nothing scheduled), then run the
handler; its `Except.error` status becomes the response status with no
tasks scheduled. -/
def contactRoute (validEmail : String → Bool) (cfg : JObj)
    (constructOk enqueueOk : Bool) (r : RawReq) : RouteResult :=
  match parseContactForm validEmail r with
  | none => ⟨422, none, []⟩
  | some form =>
      match send_contact_email cfg constructOk enqueueOk form with
      | .ok (ack, tasks) => ⟨200, some ack, tasks⟩
      | .error c => ⟨c, none, []⟩

/-- A request together with its afterlife: the response is computed
first, and only then does the runtime run the scheduled background
tasks against the mail transport (`transport msg` — whether the send
succeeds). The transport is consulted strictly after the response is
fixed. -/
def processContact (validEmail : String → Bool) (cfg : JObj)
    (constructOk enqueueOk : Bool) (transport : Message → Bool)
    (r : RawReq) : RouteResult × List Bool :=
  let res := contactRoute validEmail cfg constructOk enqueueOk r
  (res, res.tasks.map transport)

/-! ## Concrete environments used by witnesses and counterexamples -/

/-- C2 witness environment: no credential source at all. -/
def noCredsEnv : SheetEnv :=
  { googleCredsJson := none
    parseCreds := fun _ => none
    serviceAccountFromDictOk := fun _ => true
    credFileExists := false
    serviceAccountFileOk := true
    fetchRows := some [] }

/-- A sample spreadsheet row. -/
def c1Row : JObj := [("Day", JVal.jstr "Pn"), ("Title", JVal.jstr "Quiz")]

/-- C1 counterexample credential environment: the environment blob is
present but fails to parse, while a valid local credentials file exists
and the store would answer one row. -/
def c1Env : SheetEnv :=
  { googleCredsJson := some "notjson"
    parseCreds := fun _ => none
    serviceAccountFromDictOk := fun _ => true
    credFileExists := true
    serviceAccountFileOk := true
    fetchRows := some [c1Row] }

/-- The same environment with the blob removed: resolution then uses
the local file and yields the store's row. -/
def c1EnvNoBlob : SheetEnv :=
  { c1Env with googleCredsJson := none }

/-- The mail configuration held by the local file in the C1 witness. -/
def c1MailCfg : JObj := [("MAIL_FROM", JVal.jstr "file@example.com")]

/-- C1 witness mail environment: blob present but invalid, valid local
file. -/
def c1MailEnv : MailEnv :=
  { mailConfigJson := some "notjson"
    parseBlob := fun _ => none
    localFileExists := true
    readLocalFile := some c1MailCfg
    envVar := fun _ => none }

/-- C3 counterexample environment: valid blob credentials and a
reachable store whose row sequence is empty. -/
def c3Env : SheetEnv :=
  { googleCredsJson := some "creds"
    parseCreds := fun s => if s = "creds" then some [("client_email", JVal.jstr "svc@example.com")] else none
    serviceAccountFromDictOk := fun _ => true
    credFileExists := false
    serviceAccountFileOk := true
    fetchRows := some [] }

/-- C3 witness environment: valid blob credentials and a store holding
one row. -/
def c3wEnv : SheetEnv :=
  { c3Env with fetchRows := some [c1Row] }

/-- C10 witness environment: valid local-file credentials and a
reachable store whose row sequence is empty. -/
def c10Env : SheetEnv :=
  { googleCredsJson := none
    parseCreds := fun _ => none
    serviceAccountFromDictOk := fun _ => true
    credFileExists := true
    serviceAccountFileOk := true
    fetchRows := some [] }

/-! ## Helper lemmas -/

/-- Either `get_sheet_data` signals failure or it hands back the fetch
outcome untouched. -/
theorem get_sheet_data_none_or_fetch (env : SheetEnv) :
    get_sheet_data env = none ∨ get_sheet_data env = env.fetchRows := by
  obtain ⟨g, pc, sad, cfe, saf, fr⟩ := env
  rcases g with _ | s
  · cases cfe <;> cases saf <;> simp [get_sheet_data, fileBranch]
  · by_cases hs : s.isEmpty
    · cases cfe <;> cases saf <;> simp [get_sheet_data, fileBranch, hs]
    · rcases hp : pc s with _ | d
      · simp [get_sheet_data, hs, hp]
      · cases hd : sad d <;> simp [get_sheet_data, hs, hp, hd]

/-- Under any of the failure states, `get_sheet_data` returns `None`. -/
theorem get_sheet_data_none_of_credFailure (env : SheetEnv) (h : credFailure env) :
    get_sheet_data env = none := by
  rcases h with ⟨hb, hf⟩ | ⟨s, hg, hne, hp | ⟨d, hp, hd⟩⟩ | ⟨hb, hf, hok⟩ | hfetch
  · unfold get_sheet_data fileBranch
    rcases hg : env.googleCredsJson with _ | s
    · simp [hf]
    · have hs : s.isEmpty = true := by
        unfold blobTruthy at hb; rw [hg] at hb; simpa using hb
      simp [hg, hs, hf]
  · simp [get_sheet_data, hg, hne, hp]
  · simp [get_sheet_data, hg, hne, hp, hd]
  · unfold get_sheet_data fileBranch
    rcases hg : env.googleCredsJson with _ | s
    · simp [hf, hok]
    · have hs : s.isEmpty = true := by
        unfold blobTruthy at hb; rw [hg] at hb; simpa using hb
      simp [hg, hs, hf, hok]
  · rcases get_sheet_data_none_or_fetch env with h1 | h1
    · exact h1
    · rw [h1, hfetch]

/-- On a valid credential state, `get_sheet_data` is the fetch outcome
verbatim. -/
theorem get_sheet_data_of_valid (env : SheetEnv) (h : validCredState env) :
    get_sheet_data env = env.fetchRows := by
  rcases h with ⟨s, d, hg, hne, hp, hok⟩ | ⟨hb, hf, hok⟩
  · simp [get_sheet_data, hg, hne, hp, hok]
  · unfold get_sheet_data fileBranch
    rcases hg : env.googleCredsJson with _ | s
    · simp [hf, hok]
    · have hs : s.isEmpty = true := by
        unfold blobTruthy at hb; rw [hg] at hb; simpa using hb
      simp [hg, hs, hf, hok]

/-! ## Claim theorems: event data provider -/

/-- Claim C1, counterexample: for the CREDENTIALS bundle the claimed
fallthrough fails. With the blob present but invalid JSON and a valid
local file whose client would read one row, `get_sheet_data` returns
`None` (the `json.loads` failure is caught by the single outer handler),
not the file's values — which resolution does produce once the blob is
absent. -/
theorem c1_counterexample :
    get_sheet_data c1Env = none ∧
    get_sheet_data c1EnvNoBlob = some [c1Row] ∧
    (none : Option (List JObj)) ≠ some [c1Row] :=
  ⟨rfl, rfl, by simp⟩

/-- Claim C1, amended: the invalid-blob-to-file fallthrough holds for
the MAIL-SETTINGS bundle (an unparsable `MAIL_CONFIG_JSON` is logged
and resolution proceeds to the file, returning the file's config after
port processing), but NOT for the credentials bundle, where an invalid
`GOOGLE_CREDENTIALS_JSON` makes `get_sheet_data` return `None` without
consulting the file. -/
theorem c1_amended_fallthrough (menv : MailEnv) (s : String) (c : JObj)
    (senv : SheetEnv) (s2 : String) :
    (menv.mailConfigJson = some s → s.isEmpty = false → menv.parseBlob s = none →
      menv.localFileExists = true → menv.readLocalFile = some c → c ≠ [] →
      load_mail_config menv = processConfig c) ∧
    (senv.googleCredsJson = some s2 → s2.isEmpty = false → senv.parseCreds s2 = none →
      get_sheet_data senv = none) := by
  constructor
  · intro h1 h2 h3 h4 h5 h6
    have hce : c.isEmpty = false := by
      cases c
      · exact absurd rfl h6
      · rfl
    unfold load_mail_config foundConfig rawConfig
    rw [h1]
    simp [h2, h3, h4, h5, optJObjTruthy, hce]
  · intro h1 h2 h3
    simp [get_sheet_data, h1, h2, h3]

/-- Claim C1, witness for the amended theorem at a concrete
environment: invalid blob plus valid file yields the file's mail config,
while the credentials resolution yields `None`. -/
theorem c1_amended_fallthrough_witness :
    load_mail_config c1MailEnv = processConfig c1MailCfg ∧
    get_sheet_data c1Env = none :=
  ⟨(c1_amended_fallthrough c1MailEnv "notjson" c1MailCfg c1Env "notjson").1
      rfl rfl rfl rfl rfl (by simp [c1MailCfg]),
   (c1_amended_fallthrough c1MailEnv "notjson" c1MailCfg c1Env "notjson").2
      rfl rfl rfl⟩

/-- Claim C2: whenever credentials are absent, malformed, or the store
open/read raises, `get_events` returns exactly the fixed four-element
fallback sequence; its records carry precisely the keys Day, Time,
Title, Description, and the first element's Title is
"Wielkie Karaoke (Fallback)". -/
theorem c2_fallback_on_failure (env : SheetEnv) (h : credFailure env) :
    get_events env = fallback_events ∧
    fallback_events.length = 4 ∧
    (∀ r ∈ fallback_events, r.map Prod.fst = ["Day", "Time", "Title", "Description"]) ∧
    fallback_events.head?.bind (fun r => pyLookup r "Title") =
      some (JVal.jstr "Wielkie Karaoke (Fallback)") := by
  refine ⟨?_, by decide, by decide, by decide⟩
  have hnone := get_sheet_data_none_of_credFailure env h
  simp [get_events, hnone]

/-- Claim C2, witness: with no credential source at all, `get_events`
is the fallback list with the stated shape. -/
theorem c2_fallback_on_failure_witness :
    get_events noCredsEnv = fallback_events ∧
    fallback_events.length = 4 ∧
    (∀ r ∈ fallback_events, r.map Prod.fst = ["Day", "Time", "Title", "Description"]) ∧
    fallback_events.head?.bind (fun r => pyLookup r "Title") =
      some (JVal.jstr "Wielkie Karaoke (Fallback)") :=
  c2_fallback_on_failure noCredsEnv (Or.inl ⟨rfl, rfl⟩)

/-- Claim C3, counterexample: with valid credentials and a reachable
store whose row sequence is empty, `get_events` does NOT return the
store's rows verbatim — the empty success is replaced by the fallback
list. -/
theorem c3_counterexample :
    get_sheet_data c3Env = some [] ∧
    get_events c3Env = fallback_events ∧
    get_events c3Env ≠ [] :=
  ⟨rfl, rfl, by decide⟩

/-- Claim C3, amended: `get_sheet_data` hands back the store's rows
verbatim on every valid credential state, and `get_events` serves them
unchanged (same records, same order, no renaming) whenever the fetched
sequence is non-empty; an empty fetched sequence is replaced by the
fallback list. -/
theorem c3_amended_verbatim (env : SheetEnv) (rows : List JObj) :
    (validCredState env → get_sheet_data env = env.fetchRows) ∧
    (get_sheet_data env = some rows → rows ≠ [] → get_events env = rows) := by
  constructor
  · exact get_sheet_data_of_valid env
  · intro h1 h2
    have hre : rows.isEmpty = false := by
      cases rows
      · exact absurd rfl h2
      · rfl
    simp [get_events, h1, hre]

/-- Claim C3, witness for the amended theorem: valid blob credentials
and a one-row store produce that row verbatim. -/
theorem c3_amended_verbatim_witness :
    get_sheet_data c3wEnv = c3wEnv.fetchRows ∧
    get_events c3wEnv = [c1Row] :=
  ⟨(c3_amended_verbatim c3wEnv []).1
      (Or.inl ⟨"creds", [("client_email", JVal.jstr "svc@example.com")], rfl, rfl, rfl, rfl⟩),
   (c3_amended_verbatim c3wEnv [c1Row]).2 rfl (by simp [c1Row])⟩

/-- Claim C10: a successful fetch of an empty row sequence is treated
exactly like a failure — `get_events` returns the fallback list — and
`get_events` never returns an empty list in any environment. -/
theorem c10_empty_rows_fallback (env : SheetEnv) :
    (get_sheet_data env = some [] → get_events env = fallback_events) ∧
    get_events env ≠ [] := by
  constructor
  · intro h
    simp [get_events, h]
  · unfold get_events
    rcases h : get_sheet_data env with _ | data
    · simp [fallback_events]
    · rcases data with _ | ⟨r, rest⟩ <;> simp [fallback_events]

/-- Claim C10, witness: a reachable store answering zero rows makes
`get_events` return the non-empty fallback list. -/
theorem c10_empty_rows_fallback_witness :
    get_events c10Env = fallback_events ∧ get_events c10Env ≠ [] :=
  ⟨(c10_empty_rows_fallback c10Env).1 rfl, (c10_empty_rows_fallback c10Env).2⟩

/-! ## Claim theorems: mail configuration resolver -/

/-- After `pySetKey`, looking the key up yields the new value. -/
theorem pyLookup_pySetKey (c : JObj) (k : String) (v : JVal) :
    pyLookup (pySetKey c k v) k = some v := by
  induction c with
  | nil => simp [pySetKey, pyLookup]
  | cons hd tl ih =>
    obtain ⟨k2, v2⟩ := hd
    by_cases h : k2 = k <;> simp [pySetKey, pyLookup, h, ih]

/-- C4 counterexample environment: the blob parses to a one-key
config. -/
def c4Env : MailEnv :=
  { mailConfigJson := some "cfg"
    parseBlob := fun s => if s = "cfg" then some [("MAIL_USERNAME", JVal.jstr "x")] else none
    localFileExists := false
    readLocalFile := none
    envVar := fun _ => none }

/-- C4 witness environment: no blob, no file, no individual variables
set. -/
def c4wEnv : MailEnv :=
  { mailConfigJson := none
    parseBlob := fun _ => none
    localFileExists := false
    readLocalFile := none
    envVar := fun _ => none }

/-- C5 witness environment: the blob supplies the port as the string
"587". -/
def c5Env : MailEnv :=
  { mailConfigJson := some "pcfg"
    parseBlob := fun s => if s = "pcfg" then some [("MAIL_PORT", JVal.jstr "587")] else none
    localFileExists := false
    readLocalFile := none
    envVar := fun _ => none }

/-- Claim C4, counterexample: a valid blob holding only
`MAIL_USERNAME` resolves to exactly that one-key record — no defaults
are merged in, so the resolved settings record is incomplete. -/
theorem c4_counterexample :
    load_mail_config c4Env = Except.ok [("MAIL_USERNAME", JVal.jstr "x")] ∧
    completeMailCfg [("MAIL_USERNAME", JVal.jstr "x")] = false :=
  ⟨rfl, rfl⟩

/-- Claim C4, amended: when neither the blob nor the file yields a
truthy config, resolution reaches the individual-environment-variable
step, which supplies hardcoded defaults for unset fields and returns a
complete record (provided `MAIL_PORT`, when set, is numeric); with no
variables set it returns exactly the defaults record. A config found by
the blob or the file, however, is returned as-is apart from port
coercion and may be incomplete. -/
theorem c4_amended_defaults_complete (env : MailEnv) :
    (foundConfig env = none →
      (env.envVar "MAIL_PORT" = none ∨
        ∃ s n, env.envVar "MAIL_PORT" = some s ∧ pyIntOfString s = some n) →
      ∃ cfg, load_mail_config env = Except.ok cfg ∧ completeMailCfg cfg = true) ∧
    (foundConfig env = none → (∀ k, env.envVar k = none) →
      load_mail_config env = Except.ok
        [("MAIL_USERNAME", JVal.jstr "your-email@gmail.com"),
         ("MAIL_PASSWORD", JVal.jstr "your-app-password"),
         ("MAIL_FROM", JVal.jstr "your-email@gmail.com"),
         ("MAIL_PORT", JVal.jnum 587),
         ("MAIL_SERVER", JVal.jstr "smtp.gmail.com"),
         ("MAIL_RECIPIENT", JVal.jnull)]) ∧
    (∀ c, foundConfig env = some c → load_mail_config env = processConfig c) := by
  have hstep3 : foundConfig env = none → load_mail_config env = envVarFallback env := by
    intro hfc
    unfold load_mail_config
    rw [hfc]
  refine ⟨?_, ?_, ?_⟩
  · intro hfc hport
    rw [hstep3 hfc]
    have hpv : ∃ n, envPortValue env = some n := by
      rcases hport with hp | ⟨s, n, hp, hn⟩
      · exact ⟨587, by unfold envPortValue; rw [hp]⟩
      · exact ⟨n, by unfold envPortValue; rw [hp]; exact hn⟩
    obtain ⟨n, hn⟩ := hpv
    unfold envVarFallback
    rw [hn]
    exact ⟨_, rfl, by simp [completeMailCfg, mailKeys, pyLookup]⟩
  · intro hfc hvars
    rw [hstep3 hfc]
    unfold envVarFallback
    have hpv : envPortValue env = some 587 := by
      unfold envPortValue; rw [hvars]
    rw [hpv]
    simp [hvars]
  · intro c hfc
    unfold load_mail_config
    rw [hfc]

/-- Claim C4, witness for the amended theorem: with every source absent
the resolver returns a complete record. -/
theorem c4_amended_defaults_complete_witness :
    ∃ cfg, load_mail_config c4wEnv = Except.ok cfg ∧ completeMailCfg cfg = true :=
  (c4_amended_defaults_complete c4wEnv).1 rfl (Or.inl rfl)

/-- Claim C5: a `MAIL_PORT` field present in any successfully resolved
mail configuration is an integer (coercion happens at resolution time),
and a found config whose source port is non-numeric makes resolution
raise at startup (`Except.error`), not at request time. -/
theorem c5_port_coercion (env : MailEnv) :
    (∀ cfg, load_mail_config env = Except.ok cfg →
      ∀ v, pyLookup cfg "MAIL_PORT" = some v → ∃ n, v = JVal.jnum n) ∧
    (∀ c v, foundConfig env = some c → pyLookup c "MAIL_PORT" = some v →
      pyInt v = none → load_mail_config env = Except.error ()) := by
  constructor
  · intro cfg hok v hv
    rcases hfc : foundConfig env with _ | c
    · have hok2 : envVarFallback env = Except.ok cfg := by
        unfold load_mail_config at hok
        rw [hfc] at hok
        exact hok
      unfold envVarFallback at hok2
      rcases hp : envPortValue env with _ | n
      · rw [hp] at hok2
        exact absurd hok2 (by simp)
      · rw [hp] at hok2
        simp only [Except.ok.injEq] at hok2
        subst hok2
        simp [pyLookup] at hv
        exact ⟨n, hv.symm⟩
    · have hok2 : processConfig c = Except.ok cfg := by
        unfold load_mail_config at hok
        rw [hfc] at hok
        exact hok
      unfold processConfig at hok2
      rcases hl : pyLookup c "MAIL_PORT" with _ | v0
      · simp only [hl, Except.ok.injEq] at hok2
        subst hok2
        rw [hl] at hv
        exact absurd hv (by simp)
      · simp only [hl] at hok2
        rcases hi : pyInt v0 with _ | n
        · simp only [hi] at hok2
          exact absurd hok2 (by simp)
        · simp only [hi, Except.ok.injEq] at hok2
          subst hok2
          rw [pyLookup_pySetKey] at hv
          exact ⟨n, (Option.some_injective _ hv).symm⟩
  · intro c v hfc hl hi
    have hstep : load_mail_config env = processConfig c := by
      unfold load_mail_config
      rw [hfc]
    rw [hstep]
    unfold processConfig
    simp only [hl, hi]

/-- Claim C5, witness: a blob supplying the port as the string "587"
resolves to the integer 587, and the theorem applies there. -/
theorem c5_port_coercion_witness :
    load_mail_config c5Env = Except.ok [("MAIL_PORT", JVal.jnum 587)] ∧
    (∃ n, JVal.jnum 587 = JVal.jnum n) :=
  ⟨rfl,
   (c5_port_coercion c5Env).1 [("MAIL_PORT", JVal.jnum 587)] rfl (JVal.jnum 587) rfl⟩

/-! ## Claim theorems: contact mail dispatcher -/

/-- C6 counterexample configuration: `MAIL_RECIPIENT` is set but holds
the empty string. -/
def c6Cfg : JObj :=
  [("MAIL_RECIPIENT", JVal.jstr ""), ("MAIL_FROM", JVal.jstr "a@b.c")]

/-- A concrete valid contact request. -/
def c6Req : RawReq :=
  ⟨some "Al", some "al@x.com", some "Hi", some "Yo"⟩

/-- C6 witness configuration: a truthy recipient distinct from the
sender. -/
def c6wCfg : JObj :=
  [("MAIL_RECIPIENT", JVal.jstr "boss@b.c"), ("MAIL_FROM", JVal.jstr "a@b.c")]

/-- Claim C6, counterexample: with `MAIL_RECIPIENT` set to the empty
string (so set, not unset) the dispatched message's recipient is
`MAIL_FROM`, not `MAIL_RECIPIENT` — Python `or` falls through on any
falsy value, not only on an unset one. -/
theorem c6_counterexample :
    pyLookup c6Cfg "MAIL_RECIPIENT" = some (JVal.jstr "") ∧
    (contactRoute (fun _ => true) c6Cfg true true c6Req).tasks =
      [⟨"New Vegas Contact: Hi", [some (JVal.jstr "a@b.c")],
        message_body ⟨"Al", "al@x.com", "Hi", "Yo"⟩⟩] ∧
    some (JVal.jstr "a@b.c") ≠ some (JVal.jstr "") :=
  ⟨rfl, rfl, by decide⟩

/-- Claim C6, amended: the dispatched message's recipient is
`MAIL_FROM` whenever the resolved `MAIL_RECIPIENT` is unset or falsy
(absent key, `None`, or the empty string), and `MAIL_RECIPIENT` itself
whenever its value is truthy. -/
theorem c6_amended_recipient (ve : String → Bool) (cfg : JObj) (r : RawReq)
    (form : ContactForm) (h : parseContactForm ve r = some form) :
    ∃ msg, (contactRoute ve cfg true true r).tasks = [msg] ∧
      (optTruthy (pyLookup cfg "MAIL_RECIPIENT") = false →
        msg.recipients = [pyLookup cfg "MAIL_FROM"]) ∧
      (optTruthy (pyLookup cfg "MAIL_RECIPIENT") = true →
        msg.recipients = [pyLookup cfg "MAIL_RECIPIENT"]) := by
  refine ⟨⟨"New Vegas Contact: " ++ form.topic,
    [pyOr (pyLookup cfg "MAIL_RECIPIENT") (pyLookup cfg "MAIL_FROM")],
    message_body form⟩, ?_, ?_, ?_⟩
  · simp [contactRoute, h, send_contact_email]
  · intro ht
    simp [pyOr, ht]
  · intro ht
    simp [pyOr, ht]

/-- Claim C6, witness for the amended theorem: with a truthy configured
recipient the scheduled message goes to it. -/
theorem c6_amended_recipient_witness :
    ∃ msg, (contactRoute (fun _ => true) c6wCfg true true c6Req).tasks = [msg] ∧
      msg.recipients = [pyLookup c6wCfg "MAIL_RECIPIENT"] := by
  obtain ⟨msg, hm, _, ht⟩ :=
    c6_amended_recipient (fun _ => true) c6wCfg c6Req ⟨"Al", "al@x.com", "Hi", "Yo"⟩ rfl
  exact ⟨msg, hm, ht rfl⟩

/-- Claim C7: a submission whose email field fails the syntactic
validator is rejected at the boundary with a 422 client error, the
handler never runs, and no background task is scheduled. -/
theorem c7_invalid_email_rejected (ve : String → Bool) (cfg : JObj)
    (cOk eOk : Bool) (r : RawReq) (e : String)
    (he : r.email = some e) (hv : ve e = false) :
    contactRoute ve cfg cOk eOk r = ⟨422, none, []⟩ := by
  obtain ⟨nm, em, tp, ms⟩ := r
  have he2 : em = some e := he
  subst he2
  rcases nm with _ | n <;> rcases tp with _ | t <;> rcases ms with _ | m <;>
    simp [contactRoute, parseContactForm, hv]

/-- Claim C7, witness: a concrete request rejected by the validator
yields the 422 result with no scheduled task. -/
theorem c7_invalid_email_rejected_witness :
    contactRoute (fun _ => false) c6Cfg true true c6Req = ⟨422, none, []⟩ :=
  c7_invalid_email_rejected (fun _ => false) c6Cfg true true c6Req "al@x.com" rfl rfl

/-- Claim C8: for a valid submission the route answers 200 with the
acknowledgement body exactly when the background-send scheduling step
(constructing the message and mailer, then enqueuing) completed without
raising; when either part raises synchronously the route answers
500. -/
theorem c8_ack_iff_enqueue (ve : String → Bool) (cfg : JObj) (cOk eOk : Bool)
    (r : RawReq) (form : ContactForm) (h : parseContactForm ve r = some form) :
    (((contactRoute ve cfg cOk eOk r).status = 200 ∧
      (contactRoute ve cfg cOk eOk r).body = some "Email sent successfully") ↔
      (cOk && eOk) = true) ∧
    ((cOk && eOk) = false → (contactRoute ve cfg cOk eOk r).status = 500) := by
  cases cOk <;> cases eOk <;>
    simp [contactRoute, h, send_contact_email]

/-- Claim C8, witness: at a concrete valid request, acknowledgement
with both steps succeeding, 500 when enqueuing raises. -/
theorem c8_ack_iff_enqueue_witness :
    ((contactRoute (fun _ => true) c6Cfg true true c6Req).status = 200 ∧
      (contactRoute (fun _ => true) c6Cfg true true c6Req).body =
        some "Email sent successfully") ∧
    (contactRoute (fun _ => true) c6Cfg true false c6Req).status = 500 :=
  ⟨(c8_ack_iff_enqueue (fun _ => true) c6Cfg true true c6Req
      ⟨"Al", "al@x.com", "Hi", "Yo"⟩ rfl).1.mpr rfl,
   (c8_ack_iff_enqueue (fun _ => true) c6Cfg true false c6Req
      ⟨"Al", "al@x.com", "Hi", "Yo"⟩ rfl).2 rfl⟩

/-- Claim C9: for a valid submission the response is computed before
and independently of the transport — two runs differing only in the
transport's behavior produce the same response, which is the 200
acknowledgement with exactly one unit of work scheduled for after the
response; a transport failure therefore never reaches the caller. -/
theorem c9_response_transport_independent (ve : String → Bool) (cfg : JObj)
    (t1 t2 : Message → Bool) (r : RawReq) (form : ContactForm)
    (h : parseContactForm ve r = some form) :
    (processContact ve cfg true true t1 r).1 = (processContact ve cfg true true t2 r).1 ∧
    (processContact ve cfg true true t1 r).1.status = 200 ∧
    (processContact ve cfg true true t1 r).1.tasks.length = 1 := by
  refine ⟨rfl, ?_, ?_⟩ <;>
    simp [processContact, contactRoute, h, send_contact_email]

/-- Claim C9, witness: a concrete valid request against an
always-failing transport still gets the 200 acknowledgement with one
scheduled task. -/
theorem c9_response_transport_independent_witness :
    (processContact (fun _ => true) c6Cfg true true (fun _ => false) c6Req).1 =
      (processContact (fun _ => true) c6Cfg true true (fun _ => true) c6Req).1 ∧
    (processContact (fun _ => true) c6Cfg true true (fun _ => false) c6Req).1.status = 200 ∧
    (processContact (fun _ => true) c6Cfg true true (fun _ => false) c6Req).1.tasks.length = 1 :=
  c9_response_transport_independent (fun _ => true) c6Cfg (fun _ => false) (fun _ => true)
    c6Req ⟨"Al", "al@x.com", "Hi", "Yo"⟩ rfl

end NewVegas
